import Mathlib

/-!
A shallow embedding of the polyglot-es library (`index.js`).

JavaScript values, as far as the library inspects them, are modelled by
`JSValue`; JavaScript numbers by `Int` (the library only ever feeds integer
counts to the plural rules); thrown exceptions by `Except JSError`.  Each
definition mirrors the source function of the same name; JS-specific
primitives (`split`, `trim`, truthiness, property access, the lazy token
regex) are modelled by the `js*` helpers next to them.
-/

/-- A JavaScript value, as far as the library inspects one.  Objects are
association lists of fields (the library never relies on prototype fields
of its `substitutions`/`phrases` objects). -/
inductive JSValue where
  | undefined
  | null
  | bool (b : Bool)
  | num (n : Int)
  | str (s : String)
  | obj (fields : List (String × JSValue))

/-- The errors the library's code paths can raise: `invalidArgument` is the
`TypeError` thrown by `transformPhrase` on a non-string phrase,
`invalidConfiguration` the `RangeError` thrown by `constructTokenRegex`,
`nullAccess` a `TypeError` from reading a property of `null`/`undefined`,
and `notAFunction` a `TypeError` from calling a missing plural function. -/
inductive JSError where
  | invalidArgument
  | invalidConfiguration
  | nullAccess
  | notAFunction
deriving DecidableEq

/-- JS truthiness of a value. -/
def jsTruthy : JSValue → Bool
  | JSValue.undefined => false
  | JSValue.null => false
  | JSValue.bool b => b
  | JSValue.num n => n != 0
  | JSValue.str s => s != ""
  | JSValue.obj _ => true

/-- Whether a value is a string (`typeof v === "string"`). -/
def JSValue.isStr : JSValue → Bool
  | JSValue.str _ => true
  | _ => false

/-- Whether a value is `undefined` (`typeof v === "undefined"`). -/
def JSValue.isUndef : JSValue → Bool
  | JSValue.undefined => true
  | _ => false

/-- JS `String(v)` coercion, as `String.prototype.replace` applies it to a
replacer's return value. -/
def jsToString : JSValue → String
  | JSValue.undefined => "undefined"
  | JSValue.null => "null"
  | JSValue.bool b => if b then "true" else "false"
  | JSValue.num n => toString n
  | JSValue.str s => s
  | JSValue.obj _ => "[object Object]"

/-- JS property read `v[name]`: throws on `null`/`undefined`, yields the
field (or `undefined`) on an object, and `undefined` on the remaining
primitives (built-in members such as a string's `length` are not modelled;
no code path of the library depends on them). -/
def getProp : JSValue → String → Except JSError JSValue
  | JSValue.undefined, _ => Except.error JSError.nullAccess
  | JSValue.null, _ => Except.error JSError.nullAccess
  | JSValue.obj fields, name => Except.ok ((List.lookup name fields).getD JSValue.undefined)
  | _, _ => Except.ok JSValue.undefined

/-- The string that separates the different phrase possibilities
(`const delimiter = '||||'`). -/
def delimiter : String := "||||"

/-- `arabicPluralGroups` of the source, on integer counts. `Int.tmod` is
JS's `%` (truncated remainder). -/
def arabicPluralGroups (n : Int) : Int :=
  if n < 3 then n
  else
    let lastTwo := n.tmod 100
    if 3 ≤ lastTwo ∧ lastTwo ≤ 10 then 3
    else if 11 ≤ lastTwo then 4 else 5

/-- `chinesePluralGroups` of the source (the JS function ignores its
argument). -/
def chinesePluralGroups (_n : Int) : Int := 0

/-- `czechPluralGroups` of the source. -/
def czechPluralGroups (n : Int) : Int :=
  if n = 1 then 0
  else if 2 ≤ n ∧ n ≤ 4 then 1 else 2

/-- `frenchPluralGroups` of the source. -/
def frenchPluralGroups (n : Int) : Int :=
  if n > 1 then 1 else 0

/-- `germanPluralGroups` of the source. -/
def germanPluralGroups (n : Int) : Int :=
  if n = 1 then 0 else 1

/-- `icelandicPluralGroups` of the source. -/
def icelandicPluralGroups (n : Int) : Int :=
  if n.tmod 10 ≠ 1 ∨ n.tmod 100 = 11 then 1 else 0

/-- `lithuanianPluralGroups` of the source. -/
def lithuanianPluralGroups (n : Int) : Int :=
  let lastTwo := n.tmod 100
  let lastOne := lastTwo.tmod 10
  if lastOne = 1 ∧ lastTwo ≠ 11 then 0
  else if 2 ≤ lastOne ∧ lastOne ≤ 9 ∧ (lastTwo < 11 ∨ lastTwo > 19) then 1 else 2

/-- `polistPluralGroups` of the source (the source spells the Polish rule
this way). -/
def polistPluralGroups (n : Int) : Int :=
  if n = 1 then 0
  else
    let lastTwo := n.tmod 100
    let lastOne := lastTwo.tmod 10
    if 2 ≤ lastOne ∧ lastOne ≤ 4 ∧ (lastTwo < 10 ∨ lastTwo ≥ 20) then 1 else 2

/-- `russianPluralGroups` of the source. -/
def russianPluralGroups (n : Int) : Int :=
  let lastTwo := n.tmod 100
  let lastOne := lastTwo.tmod 10
  if lastTwo ≠ 11 ∧ lastOne = 1 then 0
  else if 2 ≤ lastOne ∧ lastOne ≤ 4 ∧ ¬(12 ≤ lastTwo ∧ lastTwo ≤ 14) then 1 else 2

/-- `slovenianPluralGroups` of the source (a `switch` on `n % 100`). -/
def slovenianPluralGroups (n : Int) : Int :=
  let m := n.tmod 100
  if m = 1 then 0
  else if m = 2 then 1
  else if m = 3 ∨ m = 4 then 2
  else 3

/-- A plural rule set: the source's `{ pluralTypes, pluralTypeToLanguages }`
object shape.  Both JS objects are modelled as association lists in literal
key order. -/
structure PluralRules where
  pluralTypes : List (String × (Int → Int))
  pluralTypeToLanguages : List (String × List String)

/-- `defaultPluralRules` of the source, entry for entry. -/
def defaultPluralRules : PluralRules where
  pluralTypes := [
    ("arabic", arabicPluralGroups),
    ("bosnian_serbian", russianPluralGroups),
    ("chinese", chinesePluralGroups),
    ("czech", czechPluralGroups),
    ("croatian", russianPluralGroups),
    ("french", frenchPluralGroups),
    ("german", germanPluralGroups),
    ("icelandic", icelandicPluralGroups),
    ("lithuanian", lithuanianPluralGroups),
    ("polish", polistPluralGroups),
    ("russian", russianPluralGroups),
    ("slovenian", slovenianPluralGroups)]
  pluralTypeToLanguages := [
    ("arabic", ["ar"]),
    ("bosnian_serbian", ["bs-Latn-BA", "bs-Cyrl-BA", "srl-RS", "sr-RS"]),
    ("chinese", ["id", "id-ID", "ja", "ko", "ko-KR", "lo", "ms", "th", "th-TH", "zh"]),
    ("croatian", ["hr", "hr-HR"]),
    ("german", ["fa", "da", "de", "en", "es", "fi", "el", "he", "hi-IN", "hu", "hu-HU",
      "it", "nl", "no", "pt", "sv", "tr"]),
    ("french", ["fr", "tl", "pt-br"]),
    ("russian", ["ru", "ru-RU"]),
    ("lithuanian", ["lt"]),
    ("czech", ["cs", "cs-CZ", "sk"]),
    ("polish", ["pl"]),
    ("icelandic", ["is"]),
    ("slovenian", ["sl-SL"])]

/-- `accumulateToTypeMap` of the source.  The JS accumulator is an object
written with `acc[lang] = type`; here the map is an association list read by
first match, so a later write is consed in front (it shadows earlier ones,
exactly the JS overwrite).  `filter (· != "")` is the source's
`filter(Boolean)` on a list of strings. -/
def accumulateToTypeMap (accumulator : List (String × String)) (entry : String × List String) :
    List (String × String) :=
  if entry.2.length > 0 then
    (entry.2.filter (fun lang => lang != "")).foldl
      (fun acc lang => (lang, entry.1) :: acc) accumulator
  else accumulator

/-- `langToTypeMap` of the source: `Object.entries(mapping).reduce(...)`. -/
def langToTypeMap (mapping : List (String × List String)) : List (String × String) :=
  mapping.foldl accumulateToTypeMap []

/-- The source's `locale.split` on a dash, first part: the part of the
locale before its first `-` (the whole string when it has none). -/
def localeLang (locale : String) : String :=
  String.mk (locale.data.takeWhile (fun c => c ≠ '-'))

/-- JS `a || b` on lookup results: `none` and the empty string are falsy. -/
def jsOrS (a b : Option String) : Option String :=
  match a with
  | some s => if s = "" then b else some s
  | none => b

/-- `pluralTypeName` of the source. -/
def pluralTypeName (pluralRules : PluralRules) (locale : String) : Option String :=
  let langToPluralType := langToTypeMap pluralRules.pluralTypeToLanguages
  jsOrS (jsOrS (List.lookup locale langToPluralType)
      (List.lookup (localeLang locale) langToPluralType))
    (List.lookup "en" langToPluralType)

/-- `pluralTypeIndex` of the source: `pluralTypes[name](count)`.  When the
resolved name is `undefined` or names no function, JS would raise a
`TypeError` (calling `undefined`); that is `notAFunction` here. -/
def pluralTypeIndex (pluralRules : PluralRules) (locale : String) (count : Int) :
    Except JSError Int :=
  match pluralTypeName pluralRules locale with
  | some name =>
    match List.lookup name pluralRules.pluralTypes with
    | some f => Except.ok (f count)
    | none => Except.error JSError.notAFunction
  | none => Except.error JSError.notAFunction

/-- A compiled token regex `new RegExp(escape(pre) + "(.*?)" + escape(suf), "g")`.
Because both delimiters are regex-escaped in the source, the compiled regex
matches them literally, so the pair of raw strings determines the matcher;
`interpolate` below gives it the source's lazy, leftmost, global semantics. -/
structure TokenRegex where
  pre : String
  suf : String
deriving DecidableEq

/-- `constructTokenRegex` of the source.  The `Option` arguments model the
destructuring defaults `{ prefix = '%{', suffix = '}' }` (a JS default fires
exactly when the field is `undefined`). -/
def constructTokenRegex (preOpt sufOpt : Option String) : Except JSError TokenRegex :=
  let p := preOpt.getD "%\x7b"
  let s := sufOpt.getD "\x7d"
  if p = delimiter ∨ s = delimiter then Except.error JSError.invalidConfiguration
  else Except.ok ⟨p, s⟩

/-- `defaultTokenRegex` of the source: the literal `/%\{(.*?)\}/g`. -/
def defaultTokenRegex : TokenRegex := ⟨"%\x7b", "\x7d"⟩

/-- Worker for `jsSplit`: scans the characters left to right, splitting at
each leftmost non-overlapping occurrence of `sep` (JS
`String.prototype.split` with a non-empty string separator).  The `Nat` is
fuel bounding the number of scan steps, so the recursion is structural (and
kernel-reducible); every step consumes at least one character, so the
wrapper's `length + 1` never runs out. -/
def jsSplitGo (sep : List Char) : Nat → List Char → List Char → List (List Char)
  | _, acc, [] => [acc]
  | 0, acc, l => [acc ++ l]
  | fuel + 1, acc, c :: rest =>
    if sep ≠ [] ∧ sep.isPrefixOf (c :: rest) then
      acc :: jsSplitGo sep fuel [] (rest.drop (sep.length - 1))
    else
      jsSplitGo sep fuel (acc ++ [c]) rest

/-- JS `s.split(sep)` for a non-empty string separator (the library only
splits on `delimiter`). -/
def jsSplit (s sep : String) : List String :=
  (jsSplitGo sep.data (s.data.length + 1) [] s.data).map String.mk

/-- The whitespace JS `String.prototype.trim` strips (the ASCII part; the
library's phrases are ordinary text). -/
def isJsWhitespace (c : Char) : Bool :=
  c = ' ' ∨ c = '\t' ∨ c = '\n' ∨ c = '\r' ∨ c = '\x0b' ∨ c = '\x0c'

/-- JS `s.trim()`. -/
def jsTrim (s : String) : String :=
  String.mk (((s.data.dropWhile isJsWhitespace).reverse.dropWhile isJsWhitespace).reverse)

/-- JS `array[i]` with a possibly negative or out-of-range index:
`undefined` is `none`. -/
def jsGetElem (l : List String) (i : Int) : Option String :=
  if i < 0 then none else l.get? i.toNat

/-- JS `a || b` where `a` is an element read (`undefined` or a string):
`undefined` and `""` are falsy. -/
def jsOrString (a : Option String) (b : String) : String :=
  match a with
  | some s => if s = "" then b else s
  | none => b

/-- Whether a character can be consumed by the regex `.` (JS `.` matches
anything but a line terminator). -/
def dotMatches (c : Char) : Bool :=
  c ≠ '\n' ∧ c ≠ '\r' ∧ c.val ≠ 0x2028 ∧ c.val ≠ 0x2029

/-- The lazy capture `(.*?)` followed by the literal suffix: the shortest
run of `.`-matchable characters after which `suf` matches; yields the
captured run and the input after the suffix. -/
def captureLazy (suf : List Char) : List Char → Option (List Char × List Char)
  | [] => if suf.isPrefixOf ([] : List Char) then some ([], []) else none
  | c :: rest =>
    if suf.isPrefixOf (c :: rest) then some ([], (c :: rest).drop suf.length)
    else if dotMatches c then
      (captureLazy suf rest).map (fun p => (c :: p.1, p.2))
    else none

/-- The text a placeholder occurrence is replaced with: the source's
`replacer` — the substitution value coerced to a string when it is defined,
the full matched expression (`pre ++ name ++ suf`) otherwise.  (The error
branch is unreachable on the library's calls: `transformPhrase` has already
read `options.smart_count`, so `options` is never `null`/`undefined` here.) -/
def replacementFor (options : JSValue) (pre suf nm : List Char) : List Char :=
  match getProp options (String.mk nm) with
  | Except.ok JSValue.undefined => pre ++ nm ++ suf
  | Except.ok v => (jsToString v).data
  | Except.error _ => pre ++ nm ++ suf

/-- Worker for `interpolate`: the global, leftmost, non-overlapping scan of
`result.replace(tokenRegex, replacer)`.  At each position the pattern
`pre(.*?)suf` is attempted; on failure the scan advances one character (as
the regex engine does), and a successful empty match also advances one
character (JS bumps `lastIndex` past an empty match).  The `Nat` is fuel
bounding the number of scan steps, so the recursion is structural (and
kernel-reducible); every step consumes at least one character, so the
wrapper's `length + 1` never runs out. -/
def interpGo (pre suf : List Char) (options : JSValue) : Nat → List Char → List Char
  | _, [] => []
  | 0, l => l
  | fuel + 1, c :: rest =>
    if pre.isPrefixOf (c :: rest) then
      match captureLazy suf ((c :: rest).drop pre.length) with
      | some (nm, r) =>
        if pre.length + nm.length + suf.length = 0 then
          c :: interpGo pre suf options fuel rest
        else
          replacementFor options pre suf nm ++ interpGo pre suf options fuel r
      | none => c :: interpGo pre suf options fuel rest
    else c :: interpGo pre suf options fuel rest

/-- `result.replace(tokenRegex, replacer)` of the source. -/
def interpolate (tokenRegex : TokenRegex) (options : JSValue) (s : String) : String :=
  String.mk (interpGo tokenRegex.pre.data tokenRegex.suf.data options (s.data.length + 1) s.data)

/-- The number-shortcut normalisation of `transformPhrase`:
`typeof substitutions === 'number' ? { smart_count: substitutions } : substitutions`. -/
def normalizeSubs : JSValue → JSValue
  | JSValue.num n => JSValue.obj [("smart_count", JSValue.num n)]
  | v => v

/-- `Polyglot.transformPhrase` of the source, step for step: the string type
check, the `undefined` fast path, the number-shortcut normalisation, the
`smart_count` plural selection (`(texts[index] || texts[0]).trim()`, guarded
by `typeof smartCount === 'number' && result`), and interpolation. -/
def Polyglot.transformPhrase (phrase substitutions : JSValue) (locale : String)
    (tokenRegex : TokenRegex) (pluralRules : PluralRules) : Except JSError String :=
  match phrase with
  | JSValue.str p =>
    match substitutions with
    | JSValue.undefined => Except.ok p
    | _ =>
      let options := normalizeSubs substitutions
      match getProp options "smart_count" with
      | Except.error e => Except.error e
      | Except.ok smartCount =>
        let pluralized : Except JSError String :=
          match smartCount with
          | JSValue.num count =>
            if p = "" then Except.ok p
            else
              let texts := jsSplit p delimiter
              match pluralTypeIndex pluralRules locale count with
              | Except.error e => Except.error e
              | Except.ok index =>
                Except.ok (jsTrim (jsOrString (jsGetElem texts index) (texts.headD "")))
          | _ => Except.ok p
        match pluralized with
        | Except.error e => Except.error e
        | Except.ok result => Except.ok (interpolate tokenRegex options result)
  | _ => Except.error JSError.invalidArgument

/-- The state of a `Polyglot` instance, as far as `t` and `has` read it. -/
structure Polyglot where
  phrases : List (String × JSValue)
  currentLocale : String
  onMissingKey : Option (String → JSValue → String → TokenRegex → PluralRules → JSValue)
  tokenRegex : TokenRegex
  pluralRules : PluralRules

/-- `this.phrases[key]`: the stored value, `undefined` when the key is
absent. -/
def Polyglot.phraseAt (self : Polyglot) (key : String) : JSValue :=
  (List.lookup key self.phrases).getD JSValue.undefined

/-- `Polyglot#has` of the source: `Boolean(this.phrases[key])`. -/
def Polyglot.has (self : Polyglot) (key : String) : Bool :=
  jsTruthy (self.phraseAt key)

/-- `Polyglot#t` of the source.  The returned pair is (result, warned):
`warned` records whether the `this.warn(...)` branch ran.  The branches
mirror the source: a stored string phrase is transformed; else a string
`options._` default is transformed; else a configured `onMissingKey` handler
supplies the result verbatim; else the key itself is the result and the
instance warns. -/
def Polyglot.t (self : Polyglot) (key : String) (options : JSValue) :
    Except JSError (JSValue × Bool) :=
  match self.phraseAt key with
  | JSValue.str p =>
    (Polyglot.transformPhrase (JSValue.str p) options self.currentLocale
        self.tokenRegex self.pluralRules).map (fun r => (JSValue.str r, false))
  | _ =>
    match getProp options "_" with
    | Except.error e => Except.error e
    | Except.ok u =>
      match u with
      | JSValue.str d =>
        (Polyglot.transformPhrase (JSValue.str d) options self.currentLocale
            self.tokenRegex self.pluralRules).map (fun r => (JSValue.str r, false))
      | _ =>
        match self.onMissingKey with
        | some handler =>
          Except.ok (handler key options self.currentLocale self.tokenRegex self.pluralRules, false)
        | none => Except.ok (JSValue.str key, true)

/-! **Supporting lemmas** -/

/-- Interpolating the empty string yields the empty string, whatever the
token delimiters and options. -/
theorem interpolate_empty (regex : TokenRegex) (options : JSValue) :
    interpolate regex options "" = "" := rfl

/-- A successful association-list lookup returns one of the stored values. -/
theorem lookup_snd_mem {l : List (String × String)} {k v : String}
    (h : List.lookup k l = some v) : v ∈ l.map Prod.snd := by
  induction l with
  | nil => simp [List.lookup] at h
  | cons hd tl ih =>
    obtain ⟨k1, v1⟩ := hd
    simp only [List.lookup] at h
    cases hk : k == k1 <;> rw [hk] at h
    · exact List.mem_cons_of_mem _ (ih h)
    · simp only [Option.some.injEq] at h
      simp [h]

/-- `jsOrS a b` is `b`, or `a` is a truthy string and the result is that
string. -/
theorem jsOrS_cases (a b : Option String) :
    jsOrS a b = b ∨ ∃ s, a = some s ∧ s ≠ "" ∧ jsOrS a b = some s := by
  unfold jsOrS
  cases a with
  | none => exact Or.inl rfl
  | some s =>
    by_cases hs : s = ""
    · simp [hs]
    · exact Or.inr ⟨s, rfl, hs, by simp [hs]⟩

/-- The only error a property read can raise is `nullAccess`. -/
theorem getProp_error {v : JSValue} {name : String} {e : JSError}
    (h : getProp v name = Except.error e) : e = JSError.nullAccess := by
  cases v <;> simp [getProp] at h <;> exact h.symm

/-- The only error `pluralTypeIndex` can raise is `notAFunction`. -/
theorem pluralTypeIndex_error {rules : PluralRules} {locale : String} {c : Int} {e : JSError}
    (h : pluralTypeIndex rules locale c = Except.error e) : e = JSError.notAFunction := by
  cases hn : pluralTypeName rules locale with
  | none =>
    simp [pluralTypeIndex, hn] at h
    first | exact h | exact h.symm
  | some nm =>
    cases hl : List.lookup nm rules.pluralTypes with
    | none =>
      simp [pluralTypeIndex, hn, hl] at h
      first | exact h | exact h.symm
    | some f =>
      simp [pluralTypeIndex, hn, hl] at h

/-- Under the default rule table the resolved family name always names a
category function: the flattened map's values are exactly the twelve family
names, and the final fallback resolves `"en"` to `"german"`. -/
theorem default_pluralTypeName_valid (locale : String) :
    ∃ name f, pluralTypeName defaultPluralRules locale = some name ∧
      List.lookup name defaultPluralRules.pluralTypes = some f := by
  have hall : ∀ v ∈ (langToTypeMap defaultPluralRules.pluralTypeToLanguages).map Prod.snd,
      (List.lookup v defaultPluralRules.pluralTypes).isSome = true := by decide
  have hger : (List.lookup "german" defaultPluralRules.pluralTypes).isSome = true := by decide
  have hen : List.lookup "en" (langToTypeMap defaultPluralRules.pluralTypeToLanguages)
      = some "german" := by decide
  have hdef : pluralTypeName defaultPluralRules locale =
      jsOrS (jsOrS
          (List.lookup locale (langToTypeMap defaultPluralRules.pluralTypeToLanguages))
          (List.lookup (localeLang locale) (langToTypeMap defaultPluralRules.pluralTypeToLanguages)))
        (List.lookup "en" (langToTypeMap defaultPluralRules.pluralTypeToLanguages)) := rfl
  rcases jsOrS_cases
      (jsOrS (List.lookup locale (langToTypeMap defaultPluralRules.pluralTypeToLanguages))
        (List.lookup (localeLang locale) (langToTypeMap defaultPluralRules.pluralTypeToLanguages)))
      (List.lookup "en" (langToTypeMap defaultPluralRules.pluralTypeToLanguages)) with
    hout | hout
  · obtain ⟨f, hf⟩ := Option.isSome_iff_exists.mp hger
    exact ⟨"german", f, by rw [hdef, hout, hen], hf⟩
  · obtain ⟨s, hx, hs, hres⟩ := hout
    have hmem : s ∈ (langToTypeMap defaultPluralRules.pluralTypeToLanguages).map Prod.snd := by
      rcases jsOrS_cases
          (List.lookup locale (langToTypeMap defaultPluralRules.pluralTypeToLanguages))
          (List.lookup (localeLang locale) (langToTypeMap defaultPluralRules.pluralTypeToLanguages)) with
        hb | hb
      · rw [hb] at hx
        exact lookup_snd_mem hx
      · obtain ⟨t, ha, _, hxt⟩ := hb
        rw [hxt] at hx
        cases hx
        exact lookup_snd_mem ha
    obtain ⟨f, hf⟩ := Option.isSome_iff_exists.mp (hall s hmem)
    exact ⟨s, f, by rw [hdef, hres], hf⟩

/-- Under the default rule table `pluralTypeIndex` never fails. -/
theorem default_pluralTypeIndex_ok (locale : String) (n : Int) :
    ∃ i, pluralTypeIndex defaultPluralRules locale n = Except.ok i := by
  obtain ⟨name, f, hn, hf⟩ := default_pluralTypeName_valid locale
  exact ⟨f n, by simp only [pluralTypeIndex, hn, hf]⟩

/-- Unfolding of `transformPhrase` on a string phrase and defined
substitutions: the body is the `getProp`/pluralization/interpolation
pipeline, whatever constructor the substitutions value has. -/
theorem transformPhrase_str_eq (p : String) (subs : JSValue) (hsubs : subs ≠ JSValue.undefined)
    (locale : String) (regex : TokenRegex) (rules : PluralRules) :
    Polyglot.transformPhrase (JSValue.str p) subs locale regex rules =
      (match getProp (normalizeSubs subs) "smart_count" with
       | Except.error e => Except.error e
       | Except.ok smartCount =>
         match (match smartCount with
           | JSValue.num count =>
             if p = "" then Except.ok p
             else
               match pluralTypeIndex rules locale count with
               | Except.error e => Except.error e
               | Except.ok index =>
                 Except.ok (jsTrim (jsOrString (jsGetElem (jsSplit p delimiter) index)
                   ((jsSplit p delimiter).headD "")))
           | _ => (Except.ok p : Except JSError String)) with
         | Except.error e => Except.error e
         | Except.ok result => Except.ok (interpolate regex (normalizeSubs subs) result)) := by
  cases subs with
  | undefined => exact absurd rfl hsubs
  | null => rfl
  | bool b => rfl
  | num n => rfl
  | str s => rfl
  | obj fields => rfl

/-- On a string phrase the transformer's only possible failures are
`nullAccess` (reading `smart_count` off `null` substitutions) and
`notAFunction` (a rule set that resolves no function); in particular it
never raises `invalidArgument`. -/
theorem transformPhrase_str_errors (p : String) (subs : JSValue) (locale : String)
    (regex : TokenRegex) (rules : PluralRules) (e : JSError)
    (h : Polyglot.transformPhrase (JSValue.str p) subs locale regex rules = Except.error e) :
    e = JSError.nullAccess ∨ e = JSError.notAFunction := by
  by_cases hsubs : subs = JSValue.undefined
  · subst hsubs
    simp [Polyglot.transformPhrase] at h
  · rw [transformPhrase_str_eq p subs hsubs locale regex rules] at h
    cases hgp : getProp (normalizeSubs subs) "smart_count" with
    | error e0 =>
      rw [hgp] at h
      simp only [Except.error.injEq] at h
      exact Or.inl (h ▸ getProp_error hgp)
    | ok sc =>
      rw [hgp] at h
      cases sc with
      | num count =>
        by_cases hp : p = ""
        · simp [hp] at h
        · simp only [if_neg hp] at h
          cases hpi : pluralTypeIndex rules locale count with
          | error e1 =>
            rw [hpi] at h
            simp only [Except.error.injEq] at h
            exact Or.inr (h ▸ pluralTypeIndex_error hpi)
          | ok i =>
            rw [hpi] at h
            simp at h
      | undefined => simp at h
      | null => simp at h
      | bool b => simp at h
      | str s => simp at h
      | obj fields => simp at h

/-- Two locales that resolve to the same plural index function are
indistinguishable to the transformer. -/
theorem transformPhrase_locale_congr (phrase subs : JSValue) (l1 l2 : String)
    (regex : TokenRegex) (rules : PluralRules)
    (h : ∀ c, pluralTypeIndex rules l1 c = pluralTypeIndex rules l2 c) :
    Polyglot.transformPhrase phrase subs l1 regex rules =
      Polyglot.transformPhrase phrase subs l2 regex rules := by
  cases phrase with
  | str p => cases subs <;> simp only [Polyglot.transformPhrase, h]
  | undefined => rfl
  | null => rfl
  | bool b => rfl
  | num n => rfl
  | obj fields => rfl

/-- Element selection out of a one-element list with JS falsy fallback: the
single element always wins (it is also the fallback). -/
theorem jsOrString_single (x : String) (i : Int) :
    jsOrString (jsGetElem [x] i) ([x].headD "") = x := by
  unfold jsGetElem jsOrString
  by_cases hi : i < 0
  · simp [hi]
  · simp only [hi, if_false]
    cases hit : i.toNat with
    | zero => simp [List.get?, ite_self]
    | succ k => simp [List.get?]

/-! **The claims** -/

/-- Claim C2: `transformPhrase` fails with an `InvalidArgument` error if and
only if its phrase argument is not a string; in particular each of
`transform(undefined)`, `transform(null)`, `transform(32)` and
`transform({})` fails with `InvalidArgument`, and no call with a string
phrase ever raises this error. -/
theorem c2_invalidArgument_iff_nonstring_phrase :
    (∀ (phrase substitutions : JSValue) (locale : String) (regex : TokenRegex)
        (rules : PluralRules),
      Polyglot.transformPhrase phrase substitutions locale regex rules
          = Except.error JSError.invalidArgument ↔ phrase.isStr = false)
    ∧ Polyglot.transformPhrase JSValue.undefined JSValue.undefined "en" defaultTokenRegex
        defaultPluralRules = Except.error JSError.invalidArgument
    ∧ Polyglot.transformPhrase JSValue.null JSValue.undefined "en" defaultTokenRegex
        defaultPluralRules = Except.error JSError.invalidArgument
    ∧ Polyglot.transformPhrase (JSValue.num 32) JSValue.undefined "en" defaultTokenRegex
        defaultPluralRules = Except.error JSError.invalidArgument
    ∧ Polyglot.transformPhrase (JSValue.obj []) JSValue.undefined "en" defaultTokenRegex
        defaultPluralRules = Except.error JSError.invalidArgument := by
  refine ⟨?_, rfl, rfl, rfl, rfl⟩
  intro phrase subs locale regex rules
  cases phrase with
  | str p =>
    simp only [JSValue.isStr]
    constructor
    · intro h
      rcases transformPhrase_str_errors p subs locale regex rules _ h with h1 | h1 <;>
        exact absurd h1 (by decide)
    · intro h
      exact absurd h (by decide)
  | undefined => simp [Polyglot.transformPhrase, JSValue.isStr]
  | null => simp [Polyglot.transformPhrase, JSValue.isStr]
  | bool b => simp [Polyglot.transformPhrase, JSValue.isStr]
  | num n => simp [Polyglot.transformPhrase, JSValue.isStr]
  | obj fields => simp [Polyglot.transformPhrase, JSValue.isStr]

/-- Claim C3: for every string phrase `p` and every locale `l`,
`transformPhrase(p, undefined, l)` returns `p` unchanged — no pluralization
and no interpolation is attempted when the substitutions are absent. -/
theorem c3_identity_no_substitutions (p locale : String) (regex : TokenRegex)
    (rules : PluralRules) :
    Polyglot.transformPhrase (JSValue.str p) JSValue.undefined locale regex rules
      = Except.ok p := rfl

/-- Claim C4: building the token matcher fails with an
`InvalidConfiguration` error exactly when the supplied prefix or suffix
equals the reserved pluralization separator `||||`; every other pair
constructs the matcher without error. -/
theorem c4_constructTokenRegex_delimiter (preOpt sufOpt : Option String) :
    (constructTokenRegex preOpt sufOpt = Except.error JSError.invalidConfiguration
      ↔ preOpt.getD "%\x7b" = delimiter ∨ sufOpt.getD "\x7d" = delimiter)
    ∧ (¬(preOpt.getD "%\x7b" = delimiter ∨ sufOpt.getD "\x7d" = delimiter) →
        constructTokenRegex preOpt sufOpt
          = Except.ok ⟨preOpt.getD "%\x7b", sufOpt.getD "\x7d"⟩) := by
  unfold constructTokenRegex
  by_cases h : preOpt.getD "%\x7b" = delimiter ∨ sufOpt.getD "\x7d" = delimiter <;>
    simp [h]

/-- Claim C5: resolving the plural family tries an exact match of the locale
in the flattened locale-to-family map first, then the part of the locale
before the first `-`, then what `"en"` maps to (each step skipped only when
its lookup is falsy); consequently `transformPhrase` under locale `"fr-FR"`
agrees with locale `"fr"` on every phrase and substitutions value. -/
theorem c5_locale_resolution_and_region_fallback :
    (∀ (rules : PluralRules) (locale : String),
      pluralTypeName rules locale =
        jsOrS (jsOrS (List.lookup locale (langToTypeMap rules.pluralTypeToLanguages))
            (List.lookup (localeLang locale) (langToTypeMap rules.pluralTypeToLanguages)))
          (List.lookup "en" (langToTypeMap rules.pluralTypeToLanguages)))
    ∧ (∀ (phrase subs : JSValue) (regex : TokenRegex),
        Polyglot.transformPhrase phrase subs "fr-FR" regex defaultPluralRules =
          Polyglot.transformPhrase phrase subs "fr" regex defaultPluralRules) := by
  refine ⟨fun rules locale => rfl, fun phrase subs regex => ?_⟩
  exact transformPhrase_locale_congr phrase subs "fr-FR" "fr" regex defaultPluralRules
    (fun c => rfl)

/-- Claim C6: the arabic category function maps a count `n` to `n` when
`n < 3`, to `3` when the last two digits of `n` lie in `[3,10]`, to `4` when
they are at least `11`, and to `5` otherwise; and against a 6-form phrase
under locale `"ar"` the counts `0,1,2,3,11,102` select forms `0..5`. -/
theorem c6_arabic_rule :
    (∀ n : Int, arabicPluralGroups n =
      if n < 3 then n
      else if 3 ≤ n.tmod 100 ∧ n.tmod 100 ≤ 10 then 3
      else if 11 ≤ n.tmod 100 then 4 else 5)
    ∧ Polyglot.transformPhrase (JSValue.str "f0||||f1||||f2||||f3||||f4||||f5")
        (JSValue.num 0) "ar" defaultTokenRegex defaultPluralRules = Except.ok "f0"
    ∧ Polyglot.transformPhrase (JSValue.str "f0||||f1||||f2||||f3||||f4||||f5")
        (JSValue.num 1) "ar" defaultTokenRegex defaultPluralRules = Except.ok "f1"
    ∧ Polyglot.transformPhrase (JSValue.str "f0||||f1||||f2||||f3||||f4||||f5")
        (JSValue.num 2) "ar" defaultTokenRegex defaultPluralRules = Except.ok "f2"
    ∧ Polyglot.transformPhrase (JSValue.str "f0||||f1||||f2||||f3||||f4||||f5")
        (JSValue.num 3) "ar" defaultTokenRegex defaultPluralRules = Except.ok "f3"
    ∧ Polyglot.transformPhrase (JSValue.str "f0||||f1||||f2||||f3||||f4||||f5")
        (JSValue.num 11) "ar" defaultTokenRegex defaultPluralRules = Except.ok "f4"
    ∧ Polyglot.transformPhrase (JSValue.str "f0||||f1||||f2||||f3||||f4||||f5")
        (JSValue.num 102) "ar" defaultTokenRegex defaultPluralRules = Except.ok "f5" :=
  ⟨fun n => rfl, rfl, rfl, rfl, rfl, rfl, rfl⟩

/-- Claim C7 counterexample: under the default table the locales `"bs"` and
`"sr"` do not resolve to the russian-like rule — they are absent from the
flattened map (only regioned variants such as `"bs-Latn-BA"`, `"sr-RS"` are
present) and fall back to the `"en"` family, `"german"`; at count 21 the
german-like rule picks index 1 whereas the russian-like rule picks 0. -/
theorem c7_counterexample :
    pluralTypeName defaultPluralRules "bs" = some "german"
    ∧ pluralTypeName defaultPluralRules "sr" = some "german"
    ∧ pluralTypeIndex defaultPluralRules "bs" 21 = Except.ok 1
    ∧ pluralTypeIndex defaultPluralRules "sr" 21 = Except.ok 1
    ∧ russianPluralGroups 21 = 0
    ∧ (1 : Int) ≠ 0 :=
  ⟨rfl, rfl, rfl, rfl, rfl, by decide⟩

/-- Claim C7 (amended): under the default table `"ru"` and `"hr"` (and the
regioned `"bs-Latn-BA"`, `"sr-RS"`) resolve to the russian-like category
function, while the bare `"bs"` and `"sr"` fall back to the `"en"` family
and pluralize by the german-like rule, for every count. -/
theorem c7_russian_like_locales_amended (c : Int) :
    pluralTypeIndex defaultPluralRules "ru" c = Except.ok (russianPluralGroups c)
    ∧ pluralTypeIndex defaultPluralRules "hr" c = Except.ok (russianPluralGroups c)
    ∧ pluralTypeIndex defaultPluralRules "bs-Latn-BA" c = Except.ok (russianPluralGroups c)
    ∧ pluralTypeIndex defaultPluralRules "sr-RS" c = Except.ok (russianPluralGroups c)
    ∧ pluralTypeIndex defaultPluralRules "bs" c = Except.ok (germanPluralGroups c)
    ∧ pluralTypeIndex defaultPluralRules "sr" c = Except.ok (germanPluralGroups c) :=
  ⟨rfl, rfl, rfl, rfl, rfl, rfl⟩

/-- Claim C1 counterexample: on the phrase `"one||||"` with count 2 under
locale `"en"` the computed index 1 is in bounds (`forms[1]` is the empty
string), so the claim dictates the result `""` (trim of `forms[1]`, then
interpolation); but the code's `texts[index] || texts[0]` treats the empty
form as falsy and yields `"one"`. -/
theorem c1_counterexample :
    Polyglot.transformPhrase (JSValue.str "one||||")
        (JSValue.obj [("smart_count", JSValue.num 2)]) "en" defaultTokenRegex
        defaultPluralRules = Except.ok "one"
    ∧ pluralTypeIndex defaultPluralRules "en" 2 = Except.ok 1
    ∧ (jsSplit "one||||" delimiter).get? 1 = some ""
    ∧ jsTrim "" = ""
    ∧ interpolate defaultTokenRegex (JSValue.obj [("smart_count", JSValue.num 2)]) "" = ""
    ∧ ("one" : String) ≠ "" :=
  ⟨rfl, rfl, rfl, rfl, rfl, by decide⟩

/-- Claim C1 (amended): for every string phrase, every locale and every
substitutions value whose normalisation carries a numeric `smart_count`,
`transformPhrase` under the default rules splits the phrase on `||||`,
computes the index with the resolved family function, selects
`forms[index]` and falls back to `forms[0]` exactly when that index is out
of bounds or the selected form is the empty string, trims the selection,
and interpolates the result (the empty phrase skips the pluralization step,
which coincides with this description). -/
theorem c1_plural_selection_amended (p : String) (subs : JSValue) (locale : String)
    (regex : TokenRegex) (n : Int)
    (hsc : getProp (normalizeSubs subs) "smart_count" = Except.ok (JSValue.num n)) :
    ∃ index, pluralTypeIndex defaultPluralRules locale n = Except.ok index ∧
      Polyglot.transformPhrase (JSValue.str p) subs locale regex defaultPluralRules =
        Except.ok (interpolate regex (normalizeSubs subs)
          (jsTrim (jsOrString (jsGetElem (jsSplit p delimiter) index)
            ((jsSplit p delimiter).headD "")))) := by
  obtain ⟨i, hi⟩ := default_pluralTypeIndex_ok locale n
  have hsubs : subs ≠ JSValue.undefined := by
    intro he
    rw [he] at hsc
    simp [normalizeSubs, getProp] at hsc
  refine ⟨i, hi, ?_⟩
  by_cases hp : p = ""
  · subst hp
    simp only [transformPhrase_str_eq "" subs hsubs locale regex defaultPluralRules, hsc,
      eq_self_iff_true, if_true]
    rw [show jsSplit "" delimiter = [""] from rfl, jsOrString_single]
    rfl
  · simp only [transformPhrase_str_eq p subs hsubs locale regex defaultPluralRules, hsc,
      if_neg hp, hi]

/-- Claim C1 (amended) witness: the phrase `"a |||| b"` with the shortcut
count 2 under `"en"` selects form 1 and trims it. -/
theorem c1_plural_selection_amended_witness :
    getProp (normalizeSubs (JSValue.num 2)) "smart_count" = Except.ok (JSValue.num 2)
    ∧ ∃ index, pluralTypeIndex defaultPluralRules "en" 2 = Except.ok index ∧
        Polyglot.transformPhrase (JSValue.str "a |||| b") (JSValue.num 2) "en"
            defaultTokenRegex defaultPluralRules =
          Except.ok (interpolate defaultTokenRegex (normalizeSubs (JSValue.num 2))
            (jsTrim (jsOrString (jsGetElem (jsSplit "a |||| b" delimiter) index)
              ((jsSplit "a |||| b" delimiter).headD "")))) :=
  ⟨rfl, c1_plural_selection_amended "a |||| b" (JSValue.num 2) "en" defaultTokenRegex 2 rfl⟩

/-- Claim C8 counterexample: the phrase `" hi"` contains no `||||` and the
count substitution 1 is present; the claim says the result is the phrase
with only interpolation applied (`" hi"`, unchanged), but the code trims
the selected single form and returns `"hi"`. -/
theorem c8_counterexample :
    jsSplit " hi" delimiter = [" hi"]
    ∧ Polyglot.transformPhrase (JSValue.str " hi") (JSValue.num 1) "en" defaultTokenRegex
        defaultPluralRules = Except.ok "hi"
    ∧ interpolate defaultTokenRegex (normalizeSubs (JSValue.num 1)) " hi" = " hi"
    ∧ ("hi" : String) ≠ " hi" :=
  ⟨rfl, rfl, rfl, by decide⟩

/-- Claim C8 (amended): for every phrase that does not contain the
separator `||||` (its split is the one-element sequence) and every
substitutions value carrying a numeric count, form selection is vacuous —
index 0 of the single-element split is selected whatever the computed
category — but the selection is still trimmed, so the final result equals
the trimmed phrase with interpolation applied. -/
theorem c8_no_delimiter_amended (p : String) (subs : JSValue) (locale : String)
    (regex : TokenRegex) (n : Int)
    (hnd : jsSplit p delimiter = [p])
    (hsc : getProp (normalizeSubs subs) "smart_count" = Except.ok (JSValue.num n)) :
    Polyglot.transformPhrase (JSValue.str p) subs locale regex defaultPluralRules =
      Except.ok (interpolate regex (normalizeSubs subs) (jsTrim p)) := by
  obtain ⟨i, hi⟩ := default_pluralTypeIndex_ok locale n
  have hsubs : subs ≠ JSValue.undefined := by
    intro he
    rw [he] at hsc
    simp [normalizeSubs, getProp] at hsc
  by_cases hp : p = ""
  · subst hp
    simp only [transformPhrase_str_eq "" subs hsubs locale regex defaultPluralRules, hsc,
      eq_self_iff_true, if_true]
    rfl
  · simp only [transformPhrase_str_eq p subs hsubs locale regex defaultPluralRules, hsc,
      if_neg hp, hi, hnd, jsOrString_single]

/-- Claim C8 (amended) witness: `" hi there "` has no separator; with count
5 the result is the trimmed phrase. -/
theorem c8_no_delimiter_amended_witness :
    jsSplit " hi there " delimiter = [" hi there "]
    ∧ getProp (normalizeSubs (JSValue.num 5)) "smart_count" = Except.ok (JSValue.num 5)
    ∧ Polyglot.transformPhrase (JSValue.str " hi there ") (JSValue.num 5) "en"
          defaultTokenRegex defaultPluralRules =
        Except.ok (interpolate defaultTokenRegex (normalizeSubs (JSValue.num 5))
          (jsTrim " hi there ")) :=
  ⟨rfl, rfl, c8_no_delimiter_amended " hi there " (JSValue.num 5) "en" defaultTokenRegex 5 rfl rfl⟩

/-- Claim C9: on an instance whose phrase dictionary maps a key to the
empty string, `has(key)` is `false` (the facade's truthiness test rejects
`""`) while `t(key)` returns `""` — the transformed empty-string phrase,
not the key — because `t` looks the phrase up with a strict string-type
test; the two predicates disagree on empty-string phrases. -/
theorem c9_empty_phrase_has_vs_t (self : Polyglot) (key : String)
    (h : self.phraseAt key = JSValue.str "") :
    self.has key = false ∧
      self.t key (JSValue.obj []) = Except.ok (JSValue.str "", false) := by
  refine ⟨?_, ?_⟩
  · unfold Polyglot.has
    rw [h]
    rfl
  · unfold Polyglot.t
    rw [h]
    rfl

/-- Claim C9 witness: a concrete instance storing `""` under
`"empty_string"`. -/
theorem c9_empty_phrase_has_vs_t_witness :
    (⟨[("empty_string", JSValue.str "")], "en", none, defaultTokenRegex,
        defaultPluralRules⟩ : Polyglot).phraseAt "empty_string" = JSValue.str ""
    ∧ ((⟨[("empty_string", JSValue.str "")], "en", none, defaultTokenRegex,
          defaultPluralRules⟩ : Polyglot).has "empty_string" = false
      ∧ (⟨[("empty_string", JSValue.str "")], "en", none, defaultTokenRegex,
          defaultPluralRules⟩ : Polyglot).t "empty_string" (JSValue.obj [])
          = Except.ok (JSValue.str "", false)) :=
  ⟨rfl, c9_empty_phrase_has_vs_t
    ⟨[("empty_string", JSValue.str "")], "en", none, defaultTokenRegex, defaultPluralRules⟩
    "empty_string" rfl⟩

/-- Claim C10: `t` honours the reserved default-phrase override `options._`
only when it is a string: when the key's stored phrase is not a string
(covering absent keys) and `options._` is defined but not a string, `t`
takes the missing-key path — the configured handler's verbatim result when
one is installed, otherwise a warning and the key itself. -/
theorem c10_default_override_requires_string (self : Polyglot) (key : String)
    (options u : JSValue)
    (hmiss : (self.phraseAt key).isStr = false)
    (hu : getProp options "_" = Except.ok u)
    (hdef : u.isUndef = false)
    (hnstr : u.isStr = false) :
    self.t key options =
      match self.onMissingKey with
      | some handler =>
        Except.ok (handler key options self.currentLocale self.tokenRegex self.pluralRules,
          false)
      | none => Except.ok (JSValue.str key, true) := by
  unfold Polyglot.t
  cases hpk : self.phraseAt key with
  | str p =>
    rw [hpk] at hmiss
    exact absurd hmiss (by simp [JSValue.isStr])
  | undefined =>
    rw [hu]
    cases u <;> first | rfl | exact absurd hnstr (by simp [JSValue.isStr])
  | null =>
    rw [hu]
    cases u <;> first | rfl | exact absurd hnstr (by simp [JSValue.isStr])
  | bool b =>
    rw [hu]
    cases u <;> first | rfl | exact absurd hnstr (by simp [JSValue.isStr])
  | num n =>
    rw [hu]
    cases u <;> first | rfl | exact absurd hnstr (by simp [JSValue.isStr])
  | obj fields =>
    rw [hu]
    cases u <;> first | rfl | exact absurd hnstr (by simp [JSValue.isStr])

/-- Claim C10 witness: a handlerless instance with an empty dictionary and
a numeric `_` override warns and returns the key. -/
theorem c10_default_override_requires_string_witness :
    ((⟨[], "en", none, defaultTokenRegex, defaultPluralRules⟩ : Polyglot).phraseAt
        "missing").isStr = false
    ∧ getProp (JSValue.obj [("_", JSValue.num 3)]) "_" = Except.ok (JSValue.num 3)
    ∧ (JSValue.num 3).isUndef = false
    ∧ (JSValue.num 3).isStr = false
    ∧ (⟨[], "en", none, defaultTokenRegex, defaultPluralRules⟩ : Polyglot).t "missing"
        (JSValue.obj [("_", JSValue.num 3)]) = Except.ok (JSValue.str "missing", true) :=
  ⟨rfl, rfl, rfl, rfl,
    c10_default_override_requires_string
      ⟨[], "en", none, defaultTokenRegex, defaultPluralRules⟩ "missing"
      (JSValue.obj [("_", JSValue.num 3)]) (JSValue.num 3) rfl rfl rfl rfl⟩
